import Mathlib

/-!
Shallow embedding of the `agent-created-webapp1` backend slice:
request-validation middleware, JWT authentication middleware, the
centralized error handler, the auth routes and the item routes.
Each definition is translated from the corresponding JavaScript source
file (`backend/middleware/validation.js`, `backend/middleware/errorHandler.js`,
the auth middleware, `backend/routes/item.routes.js`, `backend/routes/auth.routes.js`).
-/

namespace Webapp

/-- One entry of the `details` array in a validation-failure response:
`{ field: err.path, message: err.msg }`. -/
structure FieldErr where
  field : String
  message : String
deriving Repr, DecidableEq

/-- The `error` object of the response envelope
`{success:false, error:{message, code, details?}}`. -/
structure ErrorInfo where
  message : String
  code : String
  details : Option (List FieldErr) := none
deriving Repr, DecidableEq

/-- A persisted item document (`backend/models/Item.js`): title, content,
optional owner reference and mongoose timestamps. -/
structure ItemRec where
  id : String
  title : String
  content : String
  user : Option String := none
  createdAt : Nat
  updatedAt : Nat
deriving Repr, DecidableEq

/-- The `pagination` object returned by the search handler. -/
structure Pagination where
  total : Nat
  page : Nat
  limit : Nat
  pages : Nat
  hasNextPage : Bool
  hasPrevPage : Bool
deriving Repr, DecidableEq

/-- The user object serialized in auth responses (never contains the secret). -/
structure UserOut where
  id : String
  username : String
  role : String
  createdAt : Option Nat := none
deriving Repr, DecidableEq

/-- A JSON response as produced by the backend: HTTP status plus the
fields the various handlers put in the body. Fields a handler does not
set are `none`. -/
structure Response where
  status : Nat
  success : Bool
  message : Option String := none
  error : Option ErrorInfo := none
  item : Option ItemRec := none
  items : Option (List ItemRec) := none
  pagination : Option Pagination := none
  token : Option String := none
  userOut : Option UserOut := none
deriving Repr, DecidableEq

/-- Errors forwarded to the error handler (`next(err)`):
`ApiError` instances carry statusCode/message/code; mongoose schema
validation failures carry per-field errors; anything else only a message. -/
inductive Err where
  | api (statusCode : Nat) (message : String) (code : String)
  | storeValidation (errs : List FieldErr)
  | other (message : String)
deriving Repr, DecidableEq

/-- Outcome of one middleware / handler: pass control on (`next()`),
write a response directly (`res.status(..).json(..)`), or forward an
error to the error handler (`next(err)`). -/
inductive Step where
  | next
  | respond (r : Response)
  | fail (e : Err)
deriving Repr, DecidableEq

/-- `errorHandler` (backend/middleware/errorHandler.js, lines 31-76):
ApiError → its own statusCode and code; mongoose ValidationError → 400
VALIDATION_ERROR with details; anything else → 500 INTERNAL_ERROR with a
generic message in production and `err.message || 'Internal Server Error'`
otherwise (`""` is falsy in JS). -/
def errorHandler (production : Bool) (e : Err) : Response :=
  match e with
  | .api sc msg code =>
      { status := sc, success := false, error := some { message := msg, code := code } }
  | .storeValidation errs =>
      { status := 400, success := false,
        error := some { message := "Validation failed", code := "VALIDATION_ERROR",
                        details := some errs } }
  | .other msg =>
      { status := 500, success := false,
        error := some { message :=
                          if production then "An unexpected error occurred"
                          else if msg = "" then "Internal Server Error" else msg,
                        code := "INTERNAL_ERROR" } }

/-- The 400 response `validateRequest` writes when express-validator
collected a non-empty error list (backend/middleware/validation.js). -/
def validationFailureResponse (errs : List FieldErr) : Response :=
  { status := 400, success := false,
    error := some { message := "Validation failed", code := "VALIDATION_ERROR",
                    details := some errs } }

/-- `validateRequest` (backend/middleware/validation.js, lines 11-32):
given the errors express-validator accumulated on the request, it writes
the 400 validation response itself when the list is non-empty and calls
`next()` otherwise. -/
def validateRequest (errs : List FieldErr) : Step :=
  if errs.isEmpty then .next else .respond (validationFailureResponse errs)

/-- Runs the rest of a route's chain after `validateRequest`: if the
middleware already responded (or failed) the handler never runs. -/
def runChain (v : Step) (k : Unit → Step) : Step :=
  match v with
  | .next => k ()
  | s => s

/-- JS `String.prototype.trim` on the ASCII whitespace the backend can
receive in JSON string fields. -/
def isSpaceChar (c : Char) : Bool :=
  c = ' ' || c = '\t' || c = '\n' || c = '\r'

/-- The trim sanitizer of express-validator / mongoose (`.trim()`). -/
def jsTrim (s : String) : String :=
  ⟨((s.data.dropWhile isSpaceChar).reverse.dropWhile isSpaceChar).reverse⟩

/-- Length of a JS string (character count). -/
def strLen (s : String) : Nat := s.data.length

/-- `validator.isMongoId`: exactly 24 hexadecimal characters. -/
def isHexChar (c : Char) : Bool :=
  c.isDigit || ('a' ≤ c && c ≤ 'f') || ('A' ≤ c && c ≤ 'F')

/-- `param('id').isMongoId()`. -/
def isMongoId (s : String) : Bool :=
  strLen s == 24 && s.data.all isHexChar

/-- JS `header.split(' ')` used by the auth middleware. -/
def splitSpAux : List Char → List Char → List (List Char)
  | [], acc => [acc.reverse]
  | c :: cs, acc =>
      if c = ' ' then acc.reverse :: splitSpAux cs []
      else splitSpAux cs (c :: acc)

/-- JS `authHeader.split(' ')`. -/
def splitOnSpace (s : String) : List String :=
  (splitSpAux s.data []).map (fun l => ⟨l⟩)

/-! ## JWT authentication middleware (backend/middleware/auth.js) -/

/-- The payload signed into a token: `{ id, username, role }`. -/
structure Claims where
  id : String
  username : String
  role : String
deriving Repr, DecidableEq

/-- A decoded token as the external `jsonwebtoken` library sees it:
whether its signature verifies against the configured secret, its `exp`
claim, and its payload. The library itself is an external collaborator;
this records exactly what `jwt.verify` consults. -/
structure Token where
  sigValid : Bool
  exp : Nat
  claims : Claims
deriving Repr, DecidableEq

/-- The two failure classes of `jwt.verify`: `TokenExpiredError`
(signature fine, `exp` elapsed) and any other verification error
(`JsonWebTokenError`: bad signature, malformed token, ...). -/
inductive VerifyErr where
  | tokenExpired
  | otherVerifyFailure
deriving Repr, DecidableEq

/-- `jwt.verify(token, secret)` at clock time `now`: the signature is
checked first; only a correctly signed token can fail with
`TokenExpiredError` (expired when `exp ≤ now`). -/
def jwtVerify (tok : Token) (now : Nat) : Except VerifyErr Claims :=
  if tok.sigValid = false then .error .otherVerifyFailure
  else if tok.exp ≤ now then .error .tokenExpired
  else .ok tok.claims

/-- `authenticateJWT` (backend/middleware/auth.js, lines 60-88): checks
the Authorization header, splits it on spaces, requires exactly
`Bearer <token>`, verifies the token, and on success attaches the decoded
claims as `req.user`. `env` maps a token string to the token the JWT
library decodes it to. Returns the middleware step and the resulting
`req.user`. -/
def authenticateJWT (env : String → Token) (now : Nat)
    (authHeader : Option String) : Step × Option Claims :=
  match authHeader with
  | none => (.fail (.api 401 "Authentication required" "AUTH_REQUIRED"), none)
  | some h =>
      match splitOnSpace h with
      | [scheme, tokStr] =>
          if scheme ≠ "Bearer" then
            (.fail (.api 401 "Invalid authorization format. Use: Bearer <token>"
                        "INVALID_AUTH_FORMAT"), none)
          else
            match jwtVerify (env tokStr) now with
            | .error .tokenExpired =>
                (.fail (.api 401 "Token has expired" "TOKEN_EXPIRED"), none)
            | .error .otherVerifyFailure =>
                (.fail (.api 401 "Invalid token" "INVALID_TOKEN"), none)
            | .ok claims => (.next, some claims)
      | _ =>
          (.fail (.api 401 "Invalid authorization format. Use: Bearer <token>"
                      "INVALID_AUTH_FORMAT"), none)

/-! ## Item routes (backend/routes/item.routes.js) -/

/-- The item collection (the document store restricted to items). -/
abbrev Store := List ItemRec

/-- `Item.findById`. -/
def findById (store : Store) (id : String) : Option ItemRec :=
  store.find? (fun it => it.id == id)

/-- Insertion into a list kept sorted by `createdAt` descending. -/
def insertByCreated (it : ItemRec) : Store → Store
  | [] => [it]
  | x :: xs =>
      if x.createdAt ≤ it.createdAt then it :: x :: xs
      else x :: insertByCreated it xs

/-- `Item.find().sort({ createdAt: -1 })`: the store newest-first. -/
def sortNewestFirst (store : Store) : Store :=
  store.foldr insertByCreated []

/-- Body of POST /api/items (fields absent from the JSON are `none`). -/
structure CreateBody where
  title : Option String := none
  content : Option String := none
deriving Repr, DecidableEq

/-- The express-validator chain of POST / (item.routes.js lines 100-102):
`body('title').trim().notEmpty().isLength({max:100})`,
`body('content').trim().notEmpty()`. A missing field validates as the
empty string; every check of every chain runs (no bail), so all
violations are collected. -/
def createItemErrors (b : CreateBody) : List FieldErr :=
  let t := jsTrim (b.title.getD "")
  let c := jsTrim (b.content.getD "")
  (if t = "" then [{ field := "title", message := "Title is required" }] else []) ++
  (if strLen t > 100 then
      [{ field := "title", message := "Title cannot exceed 100 characters" }] else []) ++
  (if c = "" then [{ field := "content", message := "Content is required" }] else [])

/-- A POST /api/items request: body plus the Authorization header it may
carry (the route's chain never consults the header — it mounts no
`authenticateJWT`). -/
structure CreateReq where
  body : CreateBody
  authHeader : Option String := none
deriving Repr, DecidableEq

/-- Outcome of processing a mutating request: the middleware step the
chain ended in, and the store afterwards. -/
structure ChainOutcome where
  step : Step
  store : Store
deriving Repr, DecidableEq

/-- The POST / chain (item.routes.js lines 99-124): validators +
`validateRequest`, then the handler, which reads the (sanitized) body and
calls `Item.create` with `...(req.user && { user: req.user.id })`.
`req.user` is absent: Express initializes the request without it and the
chain contains no `authenticateJWT` to set it. `freshId`/`now` stand for
the ObjectId and timestamp the store assigns. -/
def itemCreateChain (store : Store) (req : CreateReq) (freshId : String)
    (now : Nat) : ChainOutcome :=
  let reqUser : Option Claims := none
  match validateRequest (createItemErrors req.body) with
  | .next =>
      let t := jsTrim (req.body.title.getD "")
      let c := jsTrim (req.body.content.getD "")
      let newItem : ItemRec :=
        { id := freshId, title := t, content := c,
          user := reqUser.map (fun u => u.id), createdAt := now, updatedAt := now }
      { step := .respond { status := 201, success := true,
                           message := some "Item created successfully",
                           item := some newItem },
        store := newItem :: store }
  | s => { step := s, store := store }

/-- The validator of GET /:id and DELETE /:id
(`param('id').isMongoId().withMessage('Invalid item ID')`). -/
def idParamErrors (idParam : String) : List FieldErr :=
  if isMongoId idParam then [] else [{ field := "id", message := "Invalid item ID" }]

/-- The GET /:id chain (item.routes.js lines 53-71). -/
def itemGetByIdChain (store : Store) (idParam : String) : Step :=
  runChain (validateRequest (idParamErrors idParam)) (fun _ =>
    match findById store idParam with
    | none => .fail (.api 404 ("Item with ID " ++ idParam ++ " not found") "ITEM_NOT_FOUND")
    | some it => .respond { status := 200, success := true, item := some it })

/-- The GET / chain (item.routes.js lines 23-34): list all, newest-first. -/
def itemListChain (store : Store) : Step :=
  .respond { status := 200, success := true, items := some (sortNewestFirst store) }

/-- Body of PUT /api/items/:id. -/
structure UpdateBody where
  title : Option String := none
  content : Option String := none
deriving Repr, DecidableEq

/-- The express-validator chain of PUT /:id (lines 155-158): the id must
be a MongoId and title/content are `.optional()` — checked (after trim)
only when the field is present. -/
def updateItemErrors (idParam : String) (b : UpdateBody) : List FieldErr :=
  idParamErrors idParam ++
  (match b.title with
   | none => []
   | some t =>
       let t' := jsTrim t
       (if t' = "" then [{ field := "title", message := "Title cannot be empty" }] else []) ++
       (if strLen t' > 100 then
           [{ field := "title", message := "Title cannot exceed 100 characters" }] else [])) ++
  (match b.content with
   | none => []
   | some c =>
       if jsTrim c = "" then [{ field := "content", message := "Content cannot be empty" }]
       else [])

/-- `findByIdAndUpdate(id, { $set: updates }, { new: true, runValidators: true })`
applied to the matched document: merge the present fields and refresh
`updatedAt` (mongoose timestamps update it on every update call). -/
def applyUpdates (it : ItemRec) (tOpt cOpt : Option String) (now : Nat) : ItemRec :=
  { it with title := tOpt.getD it.title, content := cOpt.getD it.content,
            updatedAt := now }

/-- Replace the document with the given id. -/
def replaceById (store : Store) (id : String) (upd : ItemRec) : Store :=
  store.map (fun it => if it.id == id then upd else it)

/-- The PUT /:id chain (item.routes.js lines 154-184). The handler builds
`updates` from the truthy body fields (a trimmed-empty string is falsy,
but validation has already rejected that case) and runs
`findByIdAndUpdate`; a missing document forwards 404 ITEM_NOT_FOUND. -/
def itemUpdateChain (store : Store) (idParam : String) (b : UpdateBody)
    (now : Nat) : ChainOutcome :=
  match validateRequest (updateItemErrors idParam b) with
  | .next =>
      let tOpt := match b.title.map jsTrim with
                  | some t => if t = "" then none else some t
                  | none => none
      let cOpt := match b.content.map jsTrim with
                  | some c => if c = "" then none else some c
                  | none => none
      match findById store idParam with
      | none =>
          { step := .fail (.api 404 ("Item with ID " ++ idParam ++ " not found")
                               "ITEM_NOT_FOUND"),
            store := store }
      | some it =>
          let upd := applyUpdates it tOpt cOpt now
          { step := .respond { status := 200, success := true,
                               message := some "Item updated successfully",
                               item := some upd },
            store := replaceById store idParam upd }
  | s => { step := s, store := store }

/-- The DELETE /:id chain (item.routes.js lines 203-221). -/
def itemDeleteChain (store : Store) (idParam : String) : ChainOutcome :=
  match validateRequest (idParamErrors idParam) with
  | .next =>
      match findById store idParam with
      | none =>
          { step := .fail (.api 404 ("Item with ID " ++ idParam ++ " not found")
                               "ITEM_NOT_FOUND"),
            store := store }
      | some _ =>
          { step := .respond { status := 200, success := true,
                               message := some ("Item with ID " ++ idParam ++
                                                " deleted successfully") },
            store := store.filter (fun it => !(it.id == idParam)) }
  | s => { step := s, store := store }

/-- The express-validator chain of GET /search (lines 252-254): `q` must
be a string (always true here), `page` a positive integer, `limit` an
integer between 1 and 50, all optional. -/
def searchQueryErrors (pageQ limitQ : Option Nat) : List FieldErr :=
  (match pageQ with
   | some p => if p < 1 then [{ field := "page", message := "Page must be a positive integer" }]
               else []
   | none => []) ++
  (match limitQ with
   | some l => if l < 1 || l > 50 then
                 [{ field := "limit", message := "Limit must be between 1 and 50" }]
               else []
   | none => [])

/-- The GET /search chain (item.routes.js lines 251-294): defaults
`page=1`, `limit=10` (`parseInt(..) || n`), filters by the `$text` query
when `q` is present (`textMatch` stands for the store's text index),
sorts newest-first, skips `(page-1)*limit`, takes `limit`, and reports
`pages = ceil(total/limit)`, `hasNextPage = page < pages`,
`hasPrevPage = page > 1`. -/
def searchChain (store : Store) (textMatch : String → ItemRec → Bool)
    (q : Option String) (pageQ limitQ : Option Nat) : Step :=
  runChain (validateRequest (searchQueryErrors pageQ limitQ)) (fun _ =>
    let page := pageQ.getD 1
    let limit := limitQ.getD 10
    let skip := (page - 1) * limit
    let filtered := match q with
                    | none => store
                    | some s => store.filter (textMatch s)
    let items := ((sortNewestFirst filtered).drop skip).take limit
    let total := filtered.length
    let pages := (total + limit - 1) / limit
    .respond { status := 200, success := true, items := some items,
               pagination := some { total := total, page := page, limit := limit,
                                    pages := pages,
                                    hasNextPage := decide (page < pages),
                                    hasPrevPage := decide (page > 1) } })

/-- End of a route chain: a direct response stands, a forwarded error is
rendered by `errorHandler`, and an unanswered request falls through to
the app-level `notFoundHandler`. -/
def finalize (production : Bool) : Step → Response
  | .respond r => r
  | .fail e => errorHandler production e
  | .next => errorHandler production (.api 404 "Route not found" "NOT_FOUND")

/-- Express path matching for the pattern `/:id` relative to the router
mount point: a single non-empty segment. -/
def singleSegment (p : String) : Option String :=
  match p.data with
  | '/' :: rest =>
      if rest.isEmpty || rest.contains '/' then none else some ⟨rest⟩
  | _ => none

/-- Dispatch of a GET request on the items router, in the order the
routes are registered in item.routes.js: `GET /` (line 23),
`GET /:id` (line 53), then `GET /search` (line 251). Express tries the
patterns in registration order, so a path matching `/:id` never reaches
the `/search` route. -/
def itemsRouterGet (store : Store) (textMatch : String → ItemRec → Bool)
    (production : Bool) (p : String) (q : Option String)
    (pageQ limitQ : Option Nat) : Response :=
  if p = "/" then finalize production (itemListChain store)
  else
    match singleSegment p with
    | some seg => finalize production (itemGetByIdChain store seg)
    | none =>
        if p = "/search" then
          finalize production (searchChain store textMatch q pageQ limitQ)
        else
          errorHandler production
            (.api 404 ("Route not found: /api/items" ++ p) "NOT_FOUND")

/-! ## Auth routes (backend/routes/auth.routes.js) -/

/-- A stored user record.
Modelled from the spec: `backend/models/User.js` is not in the source
tree; per the spec's data model a User is a unique username, a hashed
secret never serialized to clients, a role defaulting to "user", and
timestamps. -/
structure UserRec where
  id : String
  username : String
  passwordHash : String
  role : String
  createdAt : Nat
deriving Repr, DecidableEq

/-- `User.findOne({ username })`. -/
def findUserByName (users : List UserRec) (uname : String) : Option UserRec :=
  users.find? (fun u => u.username == uname)

/-- `User.findById`. -/
def findUserById (users : List UserRec) (id : String) : Option UserRec :=
  users.find? (fun u => u.id == id)

/-- Body of the auth endpoints. -/
structure AuthBody where
  username : Option String := none
  password : Option String := none
deriving Repr, DecidableEq

/-- The express-validator chain of POST /register (auth.routes.js lines
55-66): username `trim().notEmpty().isLength({min:3,max:30})` plus a
custom uniqueness lookup (`User.findOne` — error `Username already
exists`), password `trim().notEmpty().isLength({min:6})`. All checks of
both chains run and all violations are collected. -/
def registerValidationErrors (users : List UserRec) (b : AuthBody) : List FieldErr :=
  let u := jsTrim (b.username.getD "")
  let p := jsTrim (b.password.getD "")
  (if u = "" then [{ field := "username", message := "Username is required" }] else []) ++
  (if strLen u < 3 || strLen u > 30 then
      [{ field := "username", message := "Username must be between 3 and 30 characters" }]
   else []) ++
  (if (findUserByName users u).isSome then
      [{ field := "username", message := "Username already exists" }] else []) ++
  (if p = "" then [{ field := "password", message := "Password is required" }] else []) ++
  (if strLen p < 6 then
      [{ field := "password", message := "Password must be at least 6 characters" }] else [])

/-- The POST /register chain (auth.routes.js lines 55-94). `hashOf`
stands for the password hashing the (absent) User model performs before
persisting — modelled from the spec: users are stored with hashed
secrets and role defaults to "user". -/
def registerChain (users : List UserRec) (b : AuthBody) (freshId : String)
    (hashOf : String → String) (now : Nat) : Step × List UserRec :=
  match validateRequest (registerValidationErrors users b) with
  | .next =>
      let u := jsTrim (b.username.getD "")
      let p := jsTrim (b.password.getD "")
      let newUser : UserRec :=
        { id := freshId, username := u, passwordHash := hashOf p,
          role := "user", createdAt := now }
      (.respond { status := 201, success := true,
                  message := some "User registered successfully",
                  userOut := some { id := freshId, username := u, role := "user",
                                    createdAt := some now } },
       newUser :: users)
  | s => (s, users)

/-- The express-validator chain of POST /login (auth.routes.js lines
130-131): both fields `trim().notEmpty()`. -/
def loginValidationErrors (b : AuthBody) : List FieldErr :=
  (if jsTrim (b.username.getD "") = "" then
      [{ field := "username", message := "Username is required" }] else []) ++
  (if jsTrim (b.password.getD "") = "" then
      [{ field := "password", message := "Password is required" }] else [])

/-- The POST /login chain (auth.routes.js lines 129-173). `hashCheck`
stands for `user.comparePassword` — modelled from the spec: the (absent)
User model compares the candidate password against the stored hashed
secret. `sign` is `generateToken` (the external JWT signing primitive).
Unknown username and wrong password forward the same
`ApiError(401, 'Invalid username or password', 'INVALID_CREDENTIALS')`. -/
def loginChain (hashCheck : String → String → Bool) (sign : Claims → String)
    (users : List UserRec) (b : AuthBody) : Step :=
  match validateRequest (loginValidationErrors b) with
  | .next =>
      let uname := jsTrim (b.username.getD "")
      let pw := jsTrim (b.password.getD "")
      match findUserByName users uname with
      | none => .fail (.api 401 "Invalid username or password" "INVALID_CREDENTIALS")
      | some u =>
          if hashCheck pw u.passwordHash then
            .respond { status := 200, success := true,
                       message := some "Login successful",
                       token := some (sign { id := u.id, username := u.username,
                                             role := u.role }),
                       userOut := some { id := u.id, username := u.username,
                                         role := u.role } }
          else .fail (.api 401 "Invalid username or password" "INVALID_CREDENTIALS")
  | s => s

/-- The GET /me chain (auth.routes.js lines 189-210): `authenticateJWT`
then a lookup of the authenticated user. -/
def meChain (env : String → Token) (now : Nat) (authHeader : Option String)
    (users : List UserRec) : Step :=
  match authenticateJWT env now authHeader with
  | (.next, some claims) =>
      match findUserById users claims.id with
      | none => .fail (.api 404 "User not found" "USER_NOT_FOUND")
      | some u =>
          .respond { status := 200, success := true,
                     userOut := some { id := u.id, username := u.username,
                                       role := u.role, createdAt := some u.createdAt } }
  | (s, _) => s

example : jsTrim "  T " = "T" := by decide
example : isMongoId "search" = false := by decide
example : isMongoId "0123456789abcdef01234567" = true := by decide
example : splitOnSpace "Bearer tok1" = ["Bearer", "tok1"] := by decide
example : splitOnSpace "Bearer a b" = ["Bearer", "a", "b"] := by decide
example : strLen (String.mk (List.replicate 101 'a')) = 101 := by decide

/-! ## Helper lemmas -/

theorem validateRequest_nil : validateRequest [] = Step.next := rfl

theorem validateRequest_of_mem {e : FieldErr} {errs : List FieldErr} (h : e ∈ errs) :
    validateRequest errs = Step.respond (validationFailureResponse errs) := by
  unfold validateRequest
  rw [if_neg]
  simp only [List.isEmpty_iff]
  rintro rfl
  simp at h

theorem registerChain_of_mem {users : List UserRec} {b : AuthBody}
    (fid : String) (hashOf : String → String) (now : Nat)
    {e : FieldErr} (h : e ∈ registerValidationErrors users b) :
    registerChain users b fid hashOf now =
      (Step.respond (validationFailureResponse (registerValidationErrors users b)),
       users) := by
  unfold registerChain
  rw [validateRequest_of_mem h]

/-- A store holding 25 items, used as a concrete instance of "a store
holding N items" with N = 25. -/
def store25 : Store :=
  (List.range 25).map (fun i =>
    { id := toString i, title := "t", content := "c", user := none,
      createdAt := i, updatedAt := i })

/-- C1: the claim states that GET /api/items/search with limit=10 and
page=2 returns items 11..20 with the stated pagination metadata. On the
code as written this request never reaches the search handler: the
router registers `GET /:id` (line 53) before `GET /search` (line 251),
so Express captures the path as `id = "search"`, the `isMongoId`
validator fails, and `validateRequest` answers 400 VALIDATION_ERROR
("Invalid item ID"). This theorem evaluates the router at the failing
input (a 25-item store, page=2, limit=10). -/
theorem C1_search_request_is_captured_by_id_route :
    itemsRouterGet store25 (fun _ _ => true) false "/search" none (some 2) (some 10) =
      validationFailureResponse [{ field := "id", message := "Invalid item ID" }] := by
  decide

/-- The search handler itself computes exactly the pagination the claim
describes — had the request reached it: items 11..20 of the
newest-first order, `hasPrevPage = true` and `hasNextPage ↔ N > 20`.
The route-registration order, not the handler, defeats the claim. -/
theorem searchChain_page2_limit10 (store : Store) (tm : String → ItemRec → Bool) :
    searchChain store tm none (some 2) (some 10) =
      Step.respond { status := 200, success := true,
                     items := some (((sortNewestFirst store).drop 10).take 10),
                     pagination := some { total := store.length, page := 2, limit := 10,
                                          pages := (store.length + 9) / 10,
                                          hasNextPage := decide (20 < store.length),
                                          hasPrevPage := true } } := by
  unfold searchChain runChain searchQueryErrors validateRequest
  simp only [List.append_nil, List.isEmpty_nil]
  norm_num
  rcases Nat.lt_or_ge 20 store.length with h | h
  · simp [decide_eq_true_eq, h]
    omega
  · have h2 : ¬ (20 < store.length) := by omega
    simp [h2]
    omega

/-- C6: shape of the Error Normalizer, as amended. A known API error is
emitted with its own statusCode and code; a store validation failure is
400 VALIDATION_ERROR with its details; anything else is 500
INTERNAL_ERROR whose message is the fixed generic string in production
and the raw error message otherwise — except that an empty raw message
falls back to "Internal Server Error" (`err.message || '...'`). -/
theorem C6_normalizer_shape (production : Bool) :
    (∀ sc msg code, errorHandler production (Err.api sc msg code) =
        { status := sc, success := false,
          error := some { message := msg, code := code } }) ∧
    (∀ errs, errorHandler production (Err.storeValidation errs) =
        { status := 400, success := false,
          error := some { message := "Validation failed", code := "VALIDATION_ERROR",
                          details := some errs } }) ∧
    (∀ msg, errorHandler production (Err.other msg) =
        { status := 500, success := false,
          error := some { message := if production then "An unexpected error occurred"
                                     else if msg = "" then "Internal Server Error" else msg,
                          code := "INTERNAL_ERROR" } }) :=
  ⟨fun _ _ _ => rfl, fun _ => rfl, fun _ => rfl⟩

/-- C6 counterexample: in non-production, an error whose raw message is
empty is not echoed back raw — the normalizer substitutes the fixed
fallback "Internal Server Error", so "the message is ... the raw error
message otherwise" fails at this input. -/
theorem C6_counterexample_empty_raw_message :
    errorHandler false (Err.other "") =
      { status := 500, success := false,
        error := some { message := "Internal Server Error", code := "INTERNAL_ERROR" } } ∧
    ¬ errorHandler false (Err.other "") =
      { status := 500, success := false,
        error := some { message := "", code := "INTERNAL_ERROR" } } := by
  decide

/-- C7: a POST /api/items request whose title exceeds 100 characters
after trimming is answered with the validation-failure response, whose
details contain a "title" entry; the store is unchanged; and the details
are the full collected list — in particular a simultaneous content
violation is also reported, not just the first failure. -/
theorem C7_long_title_rejected (store : Store) (req : CreateReq) (fid : String)
    (now : Nat) (hlong : strLen (jsTrim (req.body.title.getD "")) > 100) :
    (itemCreateChain store req fid now).step =
      Step.respond (validationFailureResponse (createItemErrors req.body)) ∧
    { field := "title", message := "Title cannot exceed 100 characters" }
      ∈ createItemErrors req.body ∧
    (itemCreateChain store req fid now).store = store ∧
    (jsTrim (req.body.content.getD "") = "" →
      { field := "content", message := "Content is required" }
        ∈ createItemErrors req.body) := by
  have hmem : { field := "title", message := "Title cannot exceed 100 characters" }
      ∈ createItemErrors req.body := by
    unfold createItemErrors
    simp only [List.mem_append, List.mem_singleton]
    rw [if_pos hlong]
    simp
  refine ⟨?_, hmem, ?_, ?_⟩
  · unfold itemCreateChain
    rw [validateRequest_of_mem hmem]
  · unfold itemCreateChain
    rw [validateRequest_of_mem hmem]
  · intro hc
    unfold createItemErrors
    simp only [List.mem_append, List.mem_singleton]
    rw [if_pos hc]
    simp

/-- C7 witness: a 101-character title (and empty content) is rejected,
the title entry is among the details, the store stays empty, and the
content violation is reported as well. -/
theorem C7_witness :
    strLen (jsTrim ((some (String.mk (List.replicate 101 'a')) : Option String).getD "")) > 100 ∧
    (itemCreateChain [] { body := { title := some (String.mk (List.replicate 101 'a')),
                                    content := none } } "0123456789abcdef01234567" 0).store
      = [] := by
  refine ⟨by decide, ?_⟩
  exact (C7_long_title_rejected [] { body := { title := some (String.mk (List.replicate 101 'a')), content := none } } "0123456789abcdef01234567" 0 (by decide)).2.2.1

/-- C8 (amended): a successful create stores the *trimmed* submitted
title and content; get-by-id with the assigned id then returns exactly
that record, with the assigned id and the creation/update timestamps.
When the submitted values carry no leading or trailing whitespace —
as the spec's own example {title:"T", content:"C"} — the returned title
and content are identical to those submitted. -/
theorem C8_create_get_roundtrip (store : Store) (t c fid : String) (now : Nat)
    (ht : jsTrim t ≠ "") (hlen : strLen (jsTrim t) ≤ 100) (hc : jsTrim c ≠ "")
    (hfid : isMongoId fid = true) :
    (itemCreateChain store { body := { title := some t, content := some c } } fid now).step =
      Step.respond { status := 201, success := true,
                     message := some "Item created successfully",
                     item := some { id := fid, title := jsTrim t, content := jsTrim c,
                                    user := none, createdAt := now, updatedAt := now } } ∧
    itemGetByIdChain
        (itemCreateChain store { body := { title := some t, content := some c } } fid now).store
        fid =
      Step.respond { status := 200, success := true,
                     item := some { id := fid, title := jsTrim t, content := jsTrim c,
                                    user := none, createdAt := now, updatedAt := now } } ∧
    (jsTrim t = t → jsTrim c = c →
      ({ id := fid, title := jsTrim t, content := jsTrim c, user := none,
         createdAt := now, updatedAt := now } : ItemRec).title = t ∧
      ({ id := fid, title := jsTrim t, content := jsTrim c, user := none,
         createdAt := now, updatedAt := now } : ItemRec).content = c) := by
  have herrs : createItemErrors { title := some t, content := some c } = [] := by
    unfold createItemErrors
    simp [ht, hc]
    omega
  have hchain :
      itemCreateChain store { body := { title := some t, content := some c } } fid now =
        { step := Step.respond { status := 201, success := true,
                                 message := some "Item created successfully",
                                 item := some { id := fid, title := jsTrim t,
                                                content := jsTrim c, user := none,
                                                createdAt := now, updatedAt := now } },
          store := { id := fid, title := jsTrim t, content := jsTrim c, user := none,
                     createdAt := now, updatedAt := now } :: store } := by
    unfold itemCreateChain
    rw [herrs, validateRequest_nil]
    rfl
  refine ⟨by rw [hchain], ?_, fun h1 h2 => by simp [h1, h2]⟩
  rw [hchain]
  unfold itemGetByIdChain idParamErrors
  rw [hfid]
  simp [runChain, validateRequest_nil, findById]

/-- C8 counterexample: a create whose submitted title is " T " (with
surrounding whitespace) succeeds, but get-by-id returns title "T" —
not a value identical to the one submitted: the trim sanitizer of the
validator chain (and the mongoose schema) rewrites the stored value. -/
theorem C8_counterexample_whitespace_title :
    (itemCreateChain [] { body := { title := some " T ", content := some "C" } }
        "0123456789abcdef01234567" 0).step =
      Step.respond { status := 201, success := true,
                     message := some "Item created successfully",
                     item := some { id := "0123456789abcdef01234567", title := "T",
                                    content := "C", user := none,
                                    createdAt := 0, updatedAt := 0 } } ∧
    itemGetByIdChain
        (itemCreateChain [] { body := { title := some " T ", content := some "C" } }
          "0123456789abcdef01234567" 0).store
        "0123456789abcdef01234567" =
      Step.respond { status := 200, success := true,
                     item := some { id := "0123456789abcdef01234567", title := "T",
                                    content := "C", user := none,
                                    createdAt := 0, updatedAt := 0 } } ∧
    ("T" : String) ≠ " T " := by
  decide

/-- C8 witness: with the spec's own whitespace-free example values
{title:"T", content:"C"}, the amended round-trip applies and the
identity conjunct holds. -/
theorem C8_witness :
    jsTrim "T" ≠ "" ∧ strLen (jsTrim "T") ≤ 100 ∧ jsTrim "C" ≠ "" ∧
    isMongoId "0123456789abcdef01234567" = true ∧
    itemGetByIdChain
        (itemCreateChain [] { body := { title := some "T", content := some "C" } }
          "0123456789abcdef01234567" 7).store
        "0123456789abcdef01234567" =
      Step.respond { status := 200, success := true,
                     item := some { id := "0123456789abcdef01234567", title := jsTrim "T",
                                    content := jsTrim "C", user := none,
                                    createdAt := 7, updatedAt := 7 } } :=
  ⟨by decide, by decide, by decide, by decide,
   (C8_create_get_roundtrip [] "T" "C" "0123456789abcdef01234567" 7
      (by decide) (by decide) (by decide) (by decide)).2.1⟩

/-- C9: the POST /api/items chain mounts no `authenticateJWT`, so the
request identity context (`req.user`) is always absent when the handler
runs — whatever Authorization header the request carries. Consequently
every item the chain adds to the store has `user = none`, and so does
the item of any direct response it writes. -/
theorem C9_created_item_never_has_owner (store : Store) (req : CreateReq)
    (fid : String) (now : Nat) :
    (∀ it, it ∈ (itemCreateChain store req fid now).store →
        it ∈ store ∨ it.user = none) ∧
    (∀ r it, (itemCreateChain store req fid now).step = Step.respond r →
        r.item = some it → it.user = none) := by
  by_cases he : (createItemErrors req.body).isEmpty = true
  · have hv : validateRequest (createItemErrors req.body) = Step.next := by
      unfold validateRequest
      rw [if_pos he]
    unfold itemCreateChain
    rw [hv]
    constructor
    · intro it hmem
      simp only [List.mem_cons] at hmem
      rcases hmem with h | h
      · right; simp [h]
      · left; exact h
    · intro r it hr hit
      simp only [Step.respond.injEq] at hr
      rw [← hr] at hit
      simp only [Option.some.injEq] at hit
      rw [← hit]
      rfl
  · have hv : validateRequest (createItemErrors req.body) =
        Step.respond (validationFailureResponse (createItemErrors req.body)) := by
      unfold validateRequest
      rw [if_neg he]
    unfold itemCreateChain
    rw [hv]
    refine ⟨fun it hmem => Or.inl hmem, fun r it hr hit => ?_⟩
    simp only [Step.respond.injEq] at hr
    rw [← hr] at hit
    simp [validationFailureResponse] at hit

/-- C9 witness: a request carrying a well-formed bearer token still
creates an item without an owner reference. -/
theorem C9_witness :
    (itemCreateChain [] { body := { title := some "T", content := some "C" },
                          authHeader := some "Bearer sometoken" }
        "0123456789abcdef01234567" 3).step =
      Step.respond { status := 201, success := true,
                     message := some "Item created successfully",
                     item := some { id := "0123456789abcdef01234567", title := "T",
                                    content := "C", user := none,
                                    createdAt := 3, updatedAt := 3 } } ∧
    ({ id := "0123456789abcdef01234567", title := "T", content := "C", user := none,
       createdAt := 3, updatedAt := 3 } : ItemRec).user = none :=
  ⟨by decide,
   (C9_created_item_never_has_owner []
      { body := { title := some "T", content := some "C" },
        authHeader := some "Bearer sometoken" }
      "0123456789abcdef01234567" 3).2
     { status := 201, success := true, message := some "Item created successfully",
       item := some { id := "0123456789abcdef01234567", title := "T", content := "C",
                      user := none, createdAt := 3, updatedAt := 3 } }
     { id := "0123456789abcdef01234567", title := "T", content := "C", user := none,
       createdAt := 3, updatedAt := 3 }
     (by decide) (by decide)⟩

/-- C10: a PUT /api/items/:id request whose body has neither title nor
content passes the (all-optional) validators, applies an empty `$set`
merge to the matched document, and succeeds with 200; the item's title,
content and owner reference are unchanged (only `updatedAt` is
refreshed by the mongoose timestamps). -/
theorem C10_empty_update_preserves_fields (store : Store) (idParam : String)
    (it : ItemRec) (now : Nat)
    (hid : isMongoId idParam = true) (hfound : findById store idParam = some it) :
    (itemUpdateChain store idParam { title := none, content := none } now).step =
      Step.respond { status := 200, success := true,
                     message := some "Item updated successfully",
                     item := some { it with updatedAt := now } } ∧
    ({ it with updatedAt := now } : ItemRec).title = it.title ∧
    ({ it with updatedAt := now } : ItemRec).content = it.content ∧
    ({ it with updatedAt := now } : ItemRec).user = it.user ∧
    (itemUpdateChain store idParam { title := none, content := none } now).store =
      replaceById store idParam { it with updatedAt := now } := by
  have herrs : updateItemErrors idParam { title := none, content := none } = [] := by
    unfold updateItemErrors idParamErrors
    rw [hid]
    simp
  refine ⟨?_, rfl, rfl, rfl, ?_⟩ <;>
    · unfold itemUpdateChain
      rw [herrs, validateRequest_nil]
      simp only [hfound]
      rfl

/-- C10 witness: the empty partial update on a concrete one-item store
returns 200 and leaves title/content/user as they were. -/
theorem C10_witness :
    isMongoId "0123456789abcdef01234567" = true ∧
    findById [{ id := "0123456789abcdef01234567", title := "T", content := "C",
                user := some "u1", createdAt := 1, updatedAt := 1 }]
        "0123456789abcdef01234567" =
      some { id := "0123456789abcdef01234567", title := "T", content := "C",
             user := some "u1", createdAt := 1, updatedAt := 1 } ∧
    (itemUpdateChain [{ id := "0123456789abcdef01234567", title := "T", content := "C",
                        user := some "u1", createdAt := 1, updatedAt := 1 }]
        "0123456789abcdef01234567" { title := none, content := none } 9).step =
      Step.respond { status := 200, success := true,
                     message := some "Item updated successfully",
                     item := some { id := "0123456789abcdef01234567", title := "T",
                                    content := "C", user := some "u1",
                                    createdAt := 1, updatedAt := 9 } } :=
  ⟨by decide, by decide,
   (C10_empty_update_preserves_fields
      [{ id := "0123456789abcdef01234567", title := "T", content := "C",
         user := some "u1", createdAt := 1, updatedAt := 1 }]
      "0123456789abcdef01234567"
      { id := "0123456789abcdef01234567", title := "T", content := "C",
        user := some "u1", createdAt := 1, updatedAt := 1 }
      9 (by decide) (by decide)).1⟩

/-- C3: for a request whose Authorization header is a well-formed
`Bearer <token>`, if the token is signed with the correct secret but its
expiry is in the past, `authenticateJWT` fails with the 401 TOKEN_EXPIRED
ApiError and never with INVALID_TOKEN; any verification failure other
than expiry (in this model: a signature that does not verify) fails with
401 INVALID_TOKEN. -/
theorem C3_expired_token_is_TOKEN_EXPIRED (env : String → Token) (now : Nat)
    (hdr s : String) (hsplit : splitOnSpace hdr = ["Bearer", s]) :
    ((env s).sigValid = true → (env s).exp < now →
        (authenticateJWT env now (some hdr)).1 =
          Step.fail (Err.api 401 "Token has expired" "TOKEN_EXPIRED") ∧
        (authenticateJWT env now (some hdr)).1 ≠
          Step.fail (Err.api 401 "Invalid token" "INVALID_TOKEN")) ∧
    ((env s).sigValid = false →
        (authenticateJWT env now (some hdr)).1 =
          Step.fail (Err.api 401 "Invalid token" "INVALID_TOKEN")) := by
  unfold authenticateJWT
  dsimp only
  rw [hsplit]
  constructor
  · intro hsig hexp
    have hverify : jwtVerify (env s) now = Except.error VerifyErr.tokenExpired := by
      unfold jwtVerify
      rw [hsig]
      simp
      omega
    simp [hverify]
  · intro hsig
    have hverify : jwtVerify (env s) now = Except.error VerifyErr.otherVerifyFailure := by
      unfold jwtVerify
      rw [hsig]
      simp
    simp [hverify]

/-- C3 witness: a correctly signed token whose expiry (time 3) is before
the clock (time 10) is rejected as TOKEN_EXPIRED. -/
theorem C3_witness :
    splitOnSpace "Bearer tok1" = ["Bearer", "tok1"] ∧
    ((fun _ => ({ sigValid := true, exp := 3,
                  claims := { id := "u1", username := "alice", role := "user" } } : Token))
        "tok1").sigValid = true ∧
    (3 : Nat) < 10 ∧
    (authenticateJWT
        (fun _ => { sigValid := true, exp := 3,
                    claims := { id := "u1", username := "alice", role := "user" } })
        10 (some "Bearer tok1")).1 =
      Step.fail (Err.api 401 "Token has expired" "TOKEN_EXPIRED") :=
  ⟨by decide, rfl, by decide,
   ((C3_expired_token_is_TOKEN_EXPIRED
      (fun _ => { sigValid := true, exp := 3,
                  claims := { id := "u1", username := "alice", role := "user" } })
      10 "Bearer tok1" "tok1" (by decide)).1 rfl (by decide)).1⟩

/-- C4: a login whose username resolves to a user but whose password
fails the hash comparison, and a login whose username matches no user,
produce the very same finalized response: status 401, code
INVALID_CREDENTIALS, same body — the two runs are indistinguishable to
the client. Both validation chains are assumed to pass (non-empty
username and password), as in any real login attempt. -/
theorem C4_login_failures_indistinguishable (production : Bool)
    (hashCheck : String → String → Bool) (sign sign' : Claims → String)
    (users users' : List UserRec) (b b' : AuthBody) (u : UserRec)
    (hv : loginValidationErrors b = []) (hv' : loginValidationErrors b' = [])
    (hfound : findUserByName users (jsTrim (b.username.getD "")) = some u)
    (hbad : hashCheck (jsTrim (b.password.getD "")) u.passwordHash = false)
    (hnone : findUserByName users' (jsTrim (b'.username.getD "")) = none) :
    finalize production (loginChain hashCheck sign users b) =
      finalize production (loginChain hashCheck sign' users' b') ∧
    finalize production (loginChain hashCheck sign users b) =
      { status := 401, success := false,
        error := some { message := "Invalid username or password",
                        code := "INVALID_CREDENTIALS" } } := by
  have h1 : loginChain hashCheck sign users b =
      Step.fail (Err.api 401 "Invalid username or password" "INVALID_CREDENTIALS") := by
    unfold loginChain
    rw [hv, validateRequest_nil]
    simp only [hfound, hbad]
    rfl
  have h2 : loginChain hashCheck sign' users' b' =
      Step.fail (Err.api 401 "Invalid username or password" "INVALID_CREDENTIALS") := by
    unfold loginChain
    rw [hv', validateRequest_nil]
    simp only [hnone]
  rw [h1, h2]
  exact ⟨rfl, rfl⟩

/-- C4 witness: wrong password for the existing user "alice" and a login
for the unknown user "bob" yield the identical 401 INVALID_CREDENTIALS
response. -/
theorem C4_witness :
    loginValidationErrors { username := some "alice", password := some "wrong" } = [] ∧
    loginValidationErrors { username := some "bob", password := some "pw1234" } = [] ∧
    findUserByName
        [{ id := "u1", username := "alice", passwordHash := "h1", role := "user",
           createdAt := 0 }]
        (jsTrim (((some "alice" : Option String)).getD "")) =
      some { id := "u1", username := "alice", passwordHash := "h1", role := "user",
             createdAt := 0 } ∧
    findUserByName [] (jsTrim (((some "bob" : Option String)).getD "")) = none ∧
    finalize false
        (loginChain (fun _ _ => false) (fun _ => "t")
          [{ id := "u1", username := "alice", passwordHash := "h1", role := "user",
             createdAt := 0 }]
          { username := some "alice", password := some "wrong" }) =
      finalize false
        (loginChain (fun _ _ => false) (fun _ => "t") []
          { username := some "bob", password := some "pw1234" }) :=
  ⟨by decide, by decide, by decide, by decide,
   (C4_login_failures_indistinguishable false (fun _ _ => false) (fun _ => "t")
      (fun _ => "t")
      [{ id := "u1", username := "alice", passwordHash := "h1", role := "user",
         createdAt := 0 }]
      [] { username := some "alice", password := some "wrong" }
      { username := some "bob", password := some "pw1234" }
      { id := "u1", username := "alice", passwordHash := "h1", role := "user",
        createdAt := 0 }
      (by decide) (by decide) (by decide) rfl (by decide)).1⟩

/-- C5: when a registration for a username has succeeded (its validation
chain passed), a second registration with the same (trimmed) username
short-circuits in the validator: the custom uniqueness check finds the
stored user, the chain answers with the validation-failure response
whose details contain the "Username already exists" entry for the
username field, whatever the second password is, and the user store is
unchanged — no second record is created. -/
theorem C5_duplicate_username_rejected (users : List UserRec) (b b' : AuthBody)
    (fid fid' : String) (hashOf hashOf' : String → String) (now now' : Nat)
    (hok : registerValidationErrors users b = [])
    (hsame : jsTrim (b'.username.getD "") = jsTrim (b.username.getD "")) :
    { field := "username", message := "Username already exists" }
      ∈ registerValidationErrors (registerChain users b fid hashOf now).2 b' ∧
    (registerChain (registerChain users b fid hashOf now).2 b' fid' hashOf' now').1 =
      Step.respond (validationFailureResponse
        (registerValidationErrors (registerChain users b fid hashOf now).2 b')) ∧
    (registerChain (registerChain users b fid hashOf now).2 b' fid' hashOf' now').2 =
      (registerChain users b fid hashOf now).2 := by
  have husers : (registerChain users b fid hashOf now).2 =
      { id := fid, username := jsTrim (b.username.getD ""),
        passwordHash := hashOf (jsTrim (b.password.getD "")),
        role := "user", createdAt := now } :: users := by
    unfold registerChain
    rw [hok, validateRequest_nil]
  have hdup : (findUserByName (registerChain users b fid hashOf now).2
      (jsTrim (b'.username.getD ""))).isSome = true := by
    rw [husers, hsame]
    unfold findUserByName
    simp [List.find?]
  have hmem : { field := "username", message := "Username already exists" }
      ∈ registerValidationErrors (registerChain users b fid hashOf now).2 b' := by
    unfold registerValidationErrors
    simp only [List.mem_append, List.mem_singleton]
    rw [if_pos hdup]
    simp
  refine ⟨hmem, ?_, ?_⟩ <;>
    rw [registerChain_of_mem fid' hashOf' now' hmem]

/-- C5 witness: after registering "alice" into an empty store, a second
registration for "alice" — with a password that even fails the length
constraint — is rejected with a username entry and creates no record. -/
theorem C5_witness :
    registerValidationErrors []
        { username := some "alice", password := some "secret1" } = [] ∧
    (registerChain
        (registerChain [] { username := some "alice", password := some "secret1" }
            "u1" (fun p => p) 0).2
        { username := some "alice", password := some "x" } "u2" (fun p => p) 1).2 =
      (registerChain [] { username := some "alice", password := some "secret1" }
          "u1" (fun p => p) 0).2 :=
  ⟨by decide,
   (C5_duplicate_username_rejected []
      { username := some "alice", password := some "secret1" }
      { username := some "alice", password := some "x" }
      "u1" "u2" (fun p => p) (fun p => p) 0 1 (by decide) (by decide)).2.2⟩

/-! ## C2: who writes error responses -/

/-- Does a response have exactly the shape `validateRequest` writes
(400, `Validation failed`, VALIDATION_ERROR, with its details array)? -/
def isValidationWrite (r : Response) : Bool :=
  match r.error with
  | some e =>
      match e.details with
      | some errs => decide (r = validationFailureResponse errs)
      | none => false
  | none => false

/-- A middleware step writes no raw error response: if it responds
directly, the response is either a success body or the
validation-failure envelope of `validateRequest`; errors otherwise
travel via `Step.fail` to the Error Normalizer. -/
def stepRespOk (s : Step) : Bool :=
  match s with
  | .respond r => r.success || isValidationWrite r
  | _ => true

theorem stepRespOk_validationFailure (errs : List FieldErr) :
    stepRespOk (Step.respond (validationFailureResponse errs)) = true := by
  simp [stepRespOk, isValidationWrite, validationFailureResponse]

theorem validateRequest_cases (errs : List FieldErr) :
    validateRequest errs = Step.next ∨
    validateRequest errs = Step.respond (validationFailureResponse errs) := by
  unfold validateRequest
  split
  · exact Or.inl rfl
  · exact Or.inr rfl

theorem stepRespOk_runChain_validate (errs : List FieldErr) (k : Unit → Step)
    (h : stepRespOk (k ()) = true) :
    stepRespOk (runChain (validateRequest errs) k) = true := by
  rcases validateRequest_cases errs with hv | hv <;> rw [hv]
  · exact h
  · exact stepRespOk_validationFailure errs

theorem stepRespOk_itemListChain (store : Store) :
    stepRespOk (itemListChain store) = true := rfl

theorem stepRespOk_itemGetByIdChain (store : Store) (idParam : String) :
    stepRespOk (itemGetByIdChain store idParam) = true := by
  unfold itemGetByIdChain
  apply stepRespOk_runChain_validate
  cases findById store idParam <;> rfl

theorem stepRespOk_itemCreateChain (store : Store) (req : CreateReq)
    (fid : String) (now : Nat) :
    stepRespOk (itemCreateChain store req fid now).step = true := by
  unfold itemCreateChain
  rcases validateRequest_cases (createItemErrors req.body) with hv | hv <;> rw [hv]
  · rfl
  · exact stepRespOk_validationFailure _

theorem stepRespOk_itemUpdateChain (store : Store) (idParam : String)
    (b : UpdateBody) (now : Nat) :
    stepRespOk (itemUpdateChain store idParam b now).step = true := by
  unfold itemUpdateChain
  rcases validateRequest_cases (updateItemErrors idParam b) with hv | hv <;> rw [hv]
  · dsimp only
    cases findById store idParam <;> rfl
  · exact stepRespOk_validationFailure _

theorem stepRespOk_itemDeleteChain (store : Store) (idParam : String) :
    stepRespOk (itemDeleteChain store idParam).step = true := by
  unfold itemDeleteChain
  rcases validateRequest_cases (idParamErrors idParam) with hv | hv <;> rw [hv]
  · dsimp only
    cases findById store idParam <;> rfl
  · exact stepRespOk_validationFailure _

theorem stepRespOk_searchChain (store : Store) (tm : String → ItemRec → Bool)
    (q : Option String) (pageQ limitQ : Option Nat) :
    stepRespOk (searchChain store tm q pageQ limitQ) = true := by
  unfold searchChain
  apply stepRespOk_runChain_validate
  rfl

theorem stepRespOk_registerChain (users : List UserRec) (b : AuthBody)
    (fid : String) (hashOf : String → String) (now : Nat) :
    stepRespOk (registerChain users b fid hashOf now).1 = true := by
  unfold registerChain
  rcases validateRequest_cases (registerValidationErrors users b) with hv | hv <;> rw [hv]
  · rfl
  · exact stepRespOk_validationFailure _

theorem stepRespOk_loginChain (hashCheck : String → String → Bool)
    (sign : Claims → String) (users : List UserRec) (b : AuthBody) :
    stepRespOk (loginChain hashCheck sign users b) = true := by
  unfold loginChain
  rcases validateRequest_cases (loginValidationErrors b) with hv | hv <;> rw [hv]
  · dsimp only
    cases findUserByName users (jsTrim (b.username.getD "")) with
    | none => rfl
    | some u =>
        dsimp only
        split <;> rfl
  · exact stepRespOk_validationFailure _

theorem stepRespOk_authenticateJWT (env : String → Token) (now : Nat)
    (hdr : Option String) :
    stepRespOk (authenticateJWT env now hdr).1 = true := by
  unfold authenticateJWT
  split
  · rfl
  · split
    · split
      · rfl
      · split <;> rfl
    · rfl

theorem stepRespOk_meChain (env : String → Token) (now : Nat)
    (hdr : Option String) (users : List UserRec) :
    stepRespOk (meChain env now hdr users) = true := by
  have hs := stepRespOk_authenticateJWT env now hdr
  unfold meChain
  rcases hA : authenticateJWT env now hdr with ⟨s, uOpt⟩
  rw [hA] at hs
  cases s with
  | next =>
      cases uOpt with
      | some claims =>
          dsimp only
          cases findUserById users claims.id <;> rfl
      | none => rfl
  | respond r => exact hs
  | fail e => rfl

/-- C2 (amended): across every modeled route chain — item list,
get-by-id, create, update, delete, search, register, login, me — a
middleware or handler that writes a response directly writes either a
success body or the validation-failure envelope of `validateRequest`;
every error other than a request-validation failure reaches the client
only through `Step.fail`, i.e. through the Error Normalizer. The
original claim fails only for `validateRequest`, which writes its 400
response itself instead of forwarding it. -/
theorem C2_error_responses_from_normalizer_or_validator
    (store : Store) (idParam fid : String) (req : CreateReq) (bU : UpdateBody)
    (now now' : Nat) (tm : String → ItemRec → Bool) (q : Option String)
    (pageQ limitQ : Option Nat) (users : List UserRec) (bA bA' : AuthBody)
    (hashCheck : String → String → Bool) (sign : Claims → String)
    (hashOf : String → String) (env : String → Token) (hdr : Option String) :
    stepRespOk (itemListChain store) = true ∧
    stepRespOk (itemGetByIdChain store idParam) = true ∧
    stepRespOk (itemCreateChain store req fid now).step = true ∧
    stepRespOk (itemUpdateChain store idParam bU now).step = true ∧
    stepRespOk (itemDeleteChain store idParam).step = true ∧
    stepRespOk (searchChain store tm q pageQ limitQ) = true ∧
    stepRespOk (registerChain users bA fid hashOf now').1 = true ∧
    stepRespOk (loginChain hashCheck sign users bA') = true ∧
    stepRespOk (meChain env now hdr users) = true :=
  ⟨stepRespOk_itemListChain store,
   stepRespOk_itemGetByIdChain store idParam,
   stepRespOk_itemCreateChain store req fid now,
   stepRespOk_itemUpdateChain store idParam bU now,
   stepRespOk_itemDeleteChain store idParam,
   stepRespOk_searchChain store tm q pageQ limitQ,
   stepRespOk_registerChain users bA fid hashOf now',
   stepRespOk_loginChain hashCheck sign users bA',
   stepRespOk_meChain env now hdr users⟩

/-- C2 counterexample: on a POST /api/items request with an empty body,
the route chain itself — `validateRequest`, not the Error Normalizer —
writes the error response (`Step.respond` with `success = false` instead
of `Step.fail`), so the Error Normalizer is not the sole place the error
response shape is decided. -/
theorem C2_counterexample_validator_writes_error :
    (itemCreateChain [] { body := { title := none, content := none } }
        "0123456789abcdef01234567" 0).step =
      Step.respond (validationFailureResponse
        [{ field := "title", message := "Title is required" },
         { field := "content", message := "Content is required" }]) ∧
    (validationFailureResponse
        [{ field := "title", message := "Title is required" },
         { field := "content", message := "Content is required" }]).success = false := by
  decide

end Webapp
